import Mathlib

/-!
Verification of the dtmm core: rotation algebra (`dtmm/rotation.py`) and the
field data model with its binary persistence format (`dtmm/field.py`).
Real angles and matrix entries are modelled over `ℝ`, complex tensors over
`ℂ`; numpy arrays in the serialization layer are modelled as shape/data
records over `ℚ` so that all operations stay decidable.
-/

open Real Matrix

namespace Dtmm

noncomputable section RotationAlgebra

/-- `rotation_matrix_z(angle)` from `rotation.py`: rotation about the z axis. -/
def rotation_matrix_z (angle : ℝ) : Matrix (Fin 3) (Fin 3) ℝ :=
  Matrix.of ![![Real.cos angle, -Real.sin angle, 0],
              ![Real.sin angle, Real.cos angle, 0],
              ![0, 0, 1]]

/-- `rotation_matrix_y(angle)` from `rotation.py`: rotation about the y axis. -/
def rotation_matrix_y (angle : ℝ) : Matrix (Fin 3) (Fin 3) ℝ :=
  Matrix.of ![![Real.cos angle, 0, -Real.sin angle],
              ![0, 1, 0],
              ![Real.sin angle, 0, Real.cos angle]]

/-- `_rotation_matrix(yaw, theta, phi, R)` from `rotation.py`, lines 97-125:
entry-by-entry closed-form trigonometric expansion of the composed rotation. -/
def rotation_matrix (yaw theta phi : ℝ) : Matrix (Fin 3) (Fin 3) ℝ :=
  Matrix.of ![![Real.cos theta * (Real.cos phi * Real.cos yaw) - Real.sin phi * Real.sin yaw,
                -(Real.cos theta * (Real.cos phi * Real.sin yaw)) - Real.sin phi * Real.cos yaw,
                -Real.cos phi * Real.sin theta],
              ![Real.cos theta * (Real.sin phi * Real.cos yaw) + Real.cos phi * Real.sin yaw,
                Real.cos phi * Real.cos yaw - Real.cos theta * (Real.sin phi * Real.sin yaw),
                -Real.sin theta * Real.sin phi],
              ![Real.cos yaw * Real.sin theta,
                -Real.sin theta * Real.sin yaw,
                Real.cos theta]]

/-- `_rotation_matrix_uniaxial(theta, phi, R)` from `rotation.py`, lines 147-167. -/
def rotation_matrix_uniaxial (theta phi : ℝ) : Matrix (Fin 3) (Fin 3) ℝ :=
  Matrix.of ![![Real.cos theta * Real.cos phi, -Real.sin phi, -Real.cos phi * Real.sin theta],
              ![Real.cos theta * Real.sin phi, Real.cos phi, -Real.sin theta * Real.sin phi],
              ![Real.sin theta, 0, Real.cos theta]]

/-- `_rotate_diagonal_tensor(R, diagonal, out)` from `rotation.py`, lines 196-204:
packs the six independent entries of `R.diag.Rᵀ`. -/
def rotate_diagonal_tensor (R : Matrix (Fin 3) (Fin 3) ℝ) (diagonal : Fin 3 → ℂ) :
    Fin 6 → ℂ :=
  ![diagonal 0 * (R 0 0 : ℂ) * (R 0 0 : ℂ) + diagonal 1 * (R 0 1 : ℂ) * (R 0 1 : ℂ)
      + diagonal 2 * (R 0 2 : ℂ) * (R 0 2 : ℂ),
    diagonal 0 * (R 1 0 : ℂ) * (R 1 0 : ℂ) + diagonal 1 * (R 1 1 : ℂ) * (R 1 1 : ℂ)
      + diagonal 2 * (R 1 2 : ℂ) * (R 1 2 : ℂ),
    diagonal 0 * (R 2 0 : ℂ) * (R 2 0 : ℂ) + diagonal 1 * (R 2 1 : ℂ) * (R 2 1 : ℂ)
      + diagonal 2 * (R 2 2 : ℂ) * (R 2 2 : ℂ),
    diagonal 0 * (R 0 0 : ℂ) * (R 1 0 : ℂ) + diagonal 1 * (R 0 1 : ℂ) * (R 1 1 : ℂ)
      + diagonal 2 * (R 0 2 : ℂ) * (R 1 2 : ℂ),
    diagonal 0 * (R 0 0 : ℂ) * (R 2 0 : ℂ) + diagonal 1 * (R 0 1 : ℂ) * (R 2 1 : ℂ)
      + diagonal 2 * (R 0 2 : ℂ) * (R 2 2 : ℂ),
    diagonal 0 * (R 1 0 : ℂ) * (R 2 0 : ℂ) + diagonal 1 * (R 1 1 : ℂ) * (R 2 1 : ℂ)
      + diagonal 2 * (R 1 2 : ℂ) * (R 2 2 : ℂ)]

/-- `_tensor_to_matrix(tensor, matrix)` from `rotation.py`, lines 222-233:
expands a packed 6-vector into the full symmetric 3x3 matrix. -/
def tensor_to_matrix (tensor : Fin 6 → ℂ) : Matrix (Fin 3) (Fin 3) ℂ :=
  Matrix.of ![![tensor 0, tensor 3, tensor 4],
              ![tensor 3, tensor 1, tensor 5],
              ![tensor 4, tensor 5, tensor 2]]

/-- `_diagonal_tensor_to_matrix(tensor, matrix)` from `rotation.py`, lines 235-246:
expands a diagonal 3-vector into a 3x3 matrix with zero off-diagonals. -/
def diagional_tensor_to_matrix (tensor : Fin 3 → ℂ) : Matrix (Fin 3) (Fin 3) ℂ :=
  Matrix.of ![![tensor 0, 0, 0],
              ![0, tensor 1, 0],
              ![0, 0, tensor 2]]

/-- `_field2intensity(field, out)` from `field.py`, lines 181-187: per-pixel
normal Poynting component of a `[4, H, W]` field slice. -/
def field2intensity {H W : ℕ} (field : Fin 4 → Fin H → Fin W → ℂ) :
    Fin H → Fin W → ℝ := fun j k =>
  ((field 0 j k).re * (field 1 j k).re + (field 0 j k).im * (field 1 j k).im) -
    ((field 2 j k).re * (field 3 j k).re + (field 2 j k).im * (field 3 j k).im)

end RotationAlgebra

/-! ## Validation layer of the rotation kernels (`rotation.py`, lines 16-32)

Only shapes and dtypes matter to `_check_matrix`/`_output_matrix`/
`_input_matrix`, so array arguments are modelled by their shape and dtype. A
Python value passed where an array is expected is either already a numpy
`ndarray`, or any other array-like, which `np.array(mat, dtype)` converts to a
fresh array of the requested dtype whose shape is inferred from the value. -/

/-- The two configured element dtypes of the rotation kernels:
`FDTYPE` (real) and `CDTYPE` (complex). -/
inductive NpDtype where
  | float
  | cplx
deriving DecidableEq

/-- An argument of a rotation-kernel wrapper, reduced to shape/dtype data:
either a numpy `ndarray`, or a non-`ndarray` array-like of the given inferred
shape. -/
inductive PyVal where
  | nd (shape : List Nat) (dtype : NpDtype)
  | raw (shape : List Nat)
deriving DecidableEq

/-- The shape of the array an argument describes. -/
def PyVal.shape : PyVal → List Nat
  | .nd s _ => s
  | .raw s => s

/-- `_check_matrix(mat, shape, dtype)` from `rotation.py`, lines 16-18. -/
def check_matrix (s : List Nat) (d : NpDtype) (shape : List Nat) (dtype : NpDtype) :
    Except String Unit :=
  if s = shape ∧ d = dtype then .ok ()
  else .error "Input matrix must be a numpy array of expected shape and dtype"

/-- `_output_matrix(mat, shape, dtype)` from `rotation.py`, lines 20-25:
allocates when no buffer is given, otherwise checks the buffer strictly. -/
def output_matrix (mat : Option (List Nat × NpDtype)) (shape : List Nat)
    (dtype : NpDtype) : Except String (List Nat × NpDtype) :=
  match mat with
  | none => .ok (shape, dtype)
  | some (s, d) =>
    match check_matrix s d shape dtype with
    | .ok _ => .ok (s, d)
    | .error e => .error e

/-- `_input_matrix(mat, shape, dtype)` from `rotation.py`, lines 27-32: a
non-`ndarray` input is converted with `np.array(mat, dtype)` and NOT checked;
an `ndarray` input is checked strictly. -/
def input_matrix (mat : PyVal) (shape : List Nat) (dtype : NpDtype) :
    Except String (List Nat × NpDtype) :=
  match mat with
  | .raw s => .ok (s, dtype)
  | .nd s d =>
    match check_matrix s d shape dtype with
    | .ok _ => .ok (s, d)
    | .error e => .error e

/-- Validation performed by `rotation_matrix(yaw, theta, phi, output)`
(`rotation.py`, line 52). -/
def rotation_matrix_argcheck (output : Option (List Nat × NpDtype)) :
    Except String (List Nat × NpDtype) :=
  output_matrix output [3, 3] .float

/-- Validation performed by `rotation_matrix_uniaxial(theta, phi, output)`
(`rotation.py`, line 143). -/
def rotation_matrix_uniaxial_argcheck (output : Option (List Nat × NpDtype)) :
    Except String (List Nat × NpDtype) :=
  output_matrix output [3, 3] .float

/-- Validation performed by `rotate_diagonal_tensor(R, diagonal, output)`
(`rotation.py`, lines 190-192), in source order: output buffer, then
`diagonal`, then `R`. -/
def rotate_diagonal_tensor_argcheck (R diagonal : PyVal)
    (output : Option (List Nat × NpDtype)) :
    Except String ((List Nat × NpDtype) × (List Nat × NpDtype) × (List Nat × NpDtype)) :=
  match output_matrix output [6] .cplx with
  | .error e => .error e
  | .ok o =>
    match input_matrix diagonal [3] .cplx with
    | .error e => .error e
    | .ok dg =>
      match input_matrix R [3, 3] .float with
      | .error e => .error e
      | .ok r => .ok (o, dg, r)

/-- Validation performed by `tensor_to_matrix(tensor, output)`
(`rotation.py`, lines 209-210). -/
def tensor_to_matrix_argcheck (tensor : PyVal)
    (output : Option (List Nat × NpDtype)) :
    Except String ((List Nat × NpDtype) × (List Nat × NpDtype)) :=
  match output_matrix output [3, 3] .cplx with
  | .error e => .error e
  | .ok o =>
    match input_matrix tensor [6] .cplx with
    | .error e => .error e
    | .ok t => .ok (o, t)

/-- Validation performed by `diagional_tensor_to_matrix(tensor, output)`
(`rotation.py`, lines 217-218). -/
def diagional_tensor_to_matrix_argcheck (tensor : PyVal)
    (output : Option (List Nat × NpDtype)) :
    Except String ((List Nat × NpDtype) × (List Nat × NpDtype)) :=
  match output_matrix output [3, 3] .cplx with
  | .error e => .error e
  | .ok o =>
    match input_matrix tensor [3] .cplx with
    | .error e => .error e
    | .ok t => .ok (o, t)

/-- Whether an `Except` result is a success. -/
def is_ok {α : Type} : Except String α → Bool
  | .ok _ => true
  | .error _ => false

instance {ε α : Type} [DecidableEq ε] [DecidableEq α] : DecidableEq (Except ε α) :=
  fun a b =>
    match a, b with
    | .error e1, .error e2 =>
      if h : e1 = e2 then .isTrue (by rw [h]) else .isFalse (by intro hc; cases hc; exact h rfl)
    | .error _, .ok _ => .isFalse (by intro hc; cases hc)
    | .ok _, .error _ => .isFalse (by intro hc; cases hc)
    | .ok v1, .ok v2 =>
      if h : v1 = v2 then .isTrue (by rw [h]) else .isFalse (by intro hc; cases hc; exact h rfl)

/-! ## Field data model (`dtmm/field.py`)

Numpy arrays are modelled as a shape together with flattened contents; complex
entries are pairs of rationals, real entries rationals, so that array equality
is decidable.  The configured dtypes (`CDTYPE`, `FDTYPE`) are fixed process-wide
in `conf.py`, so `np.asarray(x, dtype)` on an array already of that dtype is
the identity in this model. -/

/-- A numpy array of the configured complex dtype: shape plus flattened data. -/
structure CArr where
  shape : List Nat
  data : List (ℚ × ℚ)
deriving DecidableEq

/-- A numpy array of the configured real dtype: shape plus flattened data. -/
structure RArr where
  shape : List Nat
  data : List ℚ
deriving DecidableEq

/-- `len(a)` for a numpy array: the first axis length; `none` models the
`TypeError` that `len` raises on a 0-dimensional array. -/
def RArr.pyLen (a : RArr) : Option Nat := a.shape.head?

/-- `validate_field_data(data)` from `field.py`, lines 257-283: checks
`field.ndim >= 4`, `field.shape[-4] == len(wavelengths)` and
`wavelengths.ndim == 1`; dtype/scalar coercions are the identity in this
model.  Errors carry the messages raised by the source. -/
def validate_field_data (field : CArr) (wavelengths : RArr) (pixelsize : ℚ) :
    Except String (CArr × RArr × ℚ) :=
  if field.shape.length < 4 then .error "Invald field dimensions"
  else
    match wavelengths.pyLen with
    | none => .error "len() of unsized object"
    | some n =>
      if field.shape.getD (field.shape.length - 4) 0 ≠ n ∨ wavelengths.shape.length ≠ 1 then
        .error "Incompatible wavelengths shape."
      else .ok (field, wavelengths, pixelsize)

/-- One numpy-serialized record, as written by a single `np.save` call: the
npy format is self-describing, so one record holds one array or scalar. -/
inductive NpObj where
  | carr (a : CArr)
  | rarr (a : RArr)
  | scal (x : ℚ)
deriving DecidableEq

/-- One unit of a `.dtmf` stream: a raw byte (written by `f.write`) or one
self-describing numpy record (written by `np.save`). -/
inductive Tok where
  | byte (b : Nat)
  | obj (o : NpObj)
deriving DecidableEq

/-- `MAGIC = b"dtmf"` from `field.py`, line 286. -/
def MAGIC : List Nat := [100, 116, 109, 102]

/-- `VERSION = b"\x00"` from `field.py`, line 287. -/
def VERSION : Nat := 0

/-- The error message of `load_field` for a wrong magic number
(`field.py`, line 347), without the interpolated file name. -/
def magic_error : String := "Failed to interpret file"

/-- The error message of `load_field` for an unsupported version byte
(`field.py`, line 341). -/
def version_error : String :=
  "This file was created with a more recent version of dtmm. Please upgrade your dtmm package!"

/-- The byte/record stream written by `save_field` after validation:
magic, version byte, then the three `np.save` records. -/
def field_stream (field : CArr) (wavelengths : RArr) (pixelsize : ℚ) : List Tok :=
  MAGIC.map Tok.byte ++
    [Tok.byte VERSION, Tok.obj (NpObj.carr field), Tok.obj (NpObj.rarr wavelengths),
     Tok.obj (NpObj.scal pixelsize)]

/-- The suffix `.dtmf` as characters. -/
def dtmf_suffix : List Char := ['.', 'd', 't', 'm', 'f']

/-- The filename actually opened by `save_field` for a string path
(`field.py`, lines 306-308): `.dtmf` is appended unless the name already ends
with it. -/
def save_name (file : List Char) : List Char :=
  if dtmf_suffix.isSuffixOf file then file else file ++ dtmf_suffix

/-- The filename actually opened by `load_field` for a string path
(`field.py`, lines 333-334): the given path, verbatim. -/
def load_name (file : List Char) : List Char := file

/-- A filename "lacking an extension" in the sense of the specification:
no dot anywhere in the name. -/
def lacks_extension (file : List Char) : Bool := !file.contains '.'

/-- Destination handed to `save_field`/`load_field`: a string path or an
already-open stream. -/
inductive FileRef where
  | path (name : List Char)
  | stream
deriving DecidableEq

/-- Observable outcome of one `save_field` call: the file it created (if it
opened one itself), the tokens it wrote to that file or to the caller's
stream, and the error it raised (if any). -/
structure SaveResult where
  created : Option (List Char)
  written : List Tok
  error : Option String
deriving DecidableEq

/-- `save_field(file, field_data)` from `field.py`, lines 289-320: validates
first, then (for a string path) fixes the extension and opens the file, then
writes magic, version and the three records in order. -/
def save_field (file : FileRef) (field_data : CArr × RArr × ℚ) : SaveResult :=
  match validate_field_data field_data.1 field_data.2.1 field_data.2.2 with
  | .error e => { created := none, written := [], error := some e }
  | .ok (field, wavelengths, pixelsize) =>
    match file with
    | .path name =>
      { created := some (save_name name),
        written := field_stream field wavelengths pixelsize, error := none }
    | .stream =>
      { created := none, written := field_stream field wavelengths pixelsize,
        error := none }

/-- `load_field(file)` from `field.py`, lines 323-350, on the stream contents:
reads 4 bytes and compares with `MAGIC`; on match reads 1 byte and compares
with `VERSION`, raising the upgrade error on any other read; then loads the
three records. -/
def load_field (s : List Tok) : Except String (CArr × RArr × ℚ) :=
  if s.take 4 = MAGIC.map Tok.byte then
    match s.drop 4 with
    | Tok.byte v :: rest =>
      if v = VERSION then
        match rest with
        | Tok.obj (NpObj.carr field) :: Tok.obj (NpObj.rarr wavelengths) ::
            Tok.obj (NpObj.scal pixelsize) :: _ =>
          .ok (field, wavelengths, pixelsize)
        | _ => .error "failed to read numpy records"
      else .error version_error
    | _ => .error version_error
  else .error magic_error

/-! ## Theorems -/

/-- The doctest of `rotation_matrix` (`rotation.py`, lines 40-50): the closed-form
entries factor as `Rz(phi) · Ry(theta) · Rz(yaw)`. -/
lemma rotation_matrix_decompose (yaw theta phi : ℝ) :
    rotation_matrix yaw theta phi =
      rotation_matrix_z phi * rotation_matrix_y theta * rotation_matrix_z yaw := by
  ext i j
  fin_cases i <;> fin_cases j <;>
    simp [rotation_matrix, rotation_matrix_z, rotation_matrix_y,
      Matrix.mul_apply, Fin.sum_univ_three] <;> ring

lemma rotation_matrix_z_mul_transpose (a : ℝ) :
    rotation_matrix_z a * (rotation_matrix_z a)ᵀ = 1 := by
  ext i j
  fin_cases i <;> fin_cases j <;>
    simp only [Matrix.mul_apply, Matrix.transpose_apply, Fin.sum_univ_three,
      Matrix.one_apply] <;>
    simp [rotation_matrix_z] <;>
    nlinarith [Real.sin_sq_add_cos_sq a]

lemma rotation_matrix_y_mul_transpose (a : ℝ) :
    rotation_matrix_y a * (rotation_matrix_y a)ᵀ = 1 := by
  ext i j
  fin_cases i <;> fin_cases j <;>
    simp only [Matrix.mul_apply, Matrix.transpose_apply, Fin.sum_univ_three,
      Matrix.one_apply] <;>
    simp [rotation_matrix_y] <;>
    nlinarith [Real.sin_sq_add_cos_sq a]

lemma rotation_matrix_z_det (a : ℝ) : (rotation_matrix_z a).det = 1 := by
  simp [rotation_matrix_z, Matrix.det_fin_three]
  nlinarith [Real.sin_sq_add_cos_sq a]

lemma rotation_matrix_y_det (a : ℝ) : (rotation_matrix_y a).det = 1 := by
  simp [rotation_matrix_y, Matrix.det_fin_three]
  nlinarith [Real.sin_sq_add_cos_sq a]

lemma mul_transpose_one_of {A B : Matrix (Fin 3) (Fin 3) ℝ}
    (hA : A * Aᵀ = 1) (hB : B * Bᵀ = 1) : (A * B) * (A * B)ᵀ = 1 := by
  rw [Matrix.transpose_mul, ← Matrix.mul_assoc, Matrix.mul_assoc A B Bᵀ, hB,
    Matrix.mul_one, hA]

/-- Claim C2: for every triple of angles, the matrix returned by
`rotation_matrix` is orthogonal with determinant `+1`, exactly over the reals:
`R · Rᵀ = I` and `det R = 1`. -/
theorem rotation_matrix_orthogonal (yaw theta phi : ℝ) :
    rotation_matrix yaw theta phi * (rotation_matrix yaw theta phi)ᵀ = 1 ∧
      (rotation_matrix yaw theta phi).det = 1 := by
  rw [rotation_matrix_decompose]
  constructor
  · exact mul_transpose_one_of
      (mul_transpose_one_of (rotation_matrix_z_mul_transpose phi)
        (rotation_matrix_y_mul_transpose theta))
      (rotation_matrix_z_mul_transpose yaw)
  · rw [Matrix.det_mul, Matrix.det_mul, rotation_matrix_z_det,
      rotation_matrix_y_det, rotation_matrix_z_det]
    norm_num

/-- Claim C3: `rotation_matrix_uniaxial(theta, phi)` returns exactly the same
matrix as `rotation_matrix(0, theta, phi)`, entry by entry. -/
theorem rotation_matrix_uniaxial_eq_general (theta phi : ℝ) :
    rotation_matrix_uniaxial theta phi = rotation_matrix 0 theta phi := by
  ext i j
  fin_cases i <;> fin_cases j <;>
    simp [rotation_matrix_uniaxial, rotation_matrix]

lemma vec_six_apply_five {α : Type} (x0 x1 x2 x3 x4 x5 : α) :
    ![x0, x1, x2, x3, x4, x5] (5 : Fin 6) = x5 := rfl

lemma tensor_to_matrix_rotate_diagonal (R : Matrix (Fin 3) (Fin 3) ℝ)
    (d : Fin 3 → ℂ) :
    tensor_to_matrix (rotate_diagonal_tensor R d) =
      R.map (fun x => (x : ℂ)) * Matrix.diagonal d *
        (R.map (fun x => (x : ℂ)))ᵀ := by
  ext i j
  fin_cases i <;> fin_cases j <;>
    simp only [Matrix.mul_apply, Matrix.transpose_apply, Matrix.map_apply,
      Matrix.diagonal_apply, Fin.sum_univ_three] <;>
    simp [tensor_to_matrix, rotate_diagonal_tensor, vec_six_apply_five] <;>
    ring

/-- Claim C1: for every rotation matrix produced by `rotation_matrix` and every
complex 3-vector `diag`, expanding `rotate_diagonal_tensor(R, diag)` with
`tensor_to_matrix` equals the direct product `R · diag(diag) · Rᵀ`, and the six
packed entries equal the sums `Σ_k diag[k]·R[i,k]·R[j,k]` for the index pairs
`(0,0), (1,1), (2,2), (0,1), (0,2), (1,2)`. -/
theorem rotate_diagonal_tensor_correct (yaw theta phi : ℝ) (diag : Fin 3 → ℂ) :
    (tensor_to_matrix (rotate_diagonal_tensor (rotation_matrix yaw theta phi) diag) =
      (rotation_matrix yaw theta phi).map (fun x => (x : ℂ)) * Matrix.diagonal diag *
        ((rotation_matrix yaw theta phi).map (fun x => (x : ℂ)))ᵀ) ∧
    (∀ R : Matrix (Fin 3) (Fin 3) ℝ,
      rotate_diagonal_tensor R diag 0 = ∑ k : Fin 3, diag k * ((R 0 k : ℂ)) ^ 2 ∧
      rotate_diagonal_tensor R diag 1 = ∑ k : Fin 3, diag k * ((R 1 k : ℂ)) ^ 2 ∧
      rotate_diagonal_tensor R diag 2 = ∑ k : Fin 3, diag k * ((R 2 k : ℂ)) ^ 2 ∧
      rotate_diagonal_tensor R diag 3 = ∑ k : Fin 3, diag k * (R 0 k : ℂ) * (R 1 k : ℂ) ∧
      rotate_diagonal_tensor R diag 4 = ∑ k : Fin 3, diag k * (R 0 k : ℂ) * (R 2 k : ℂ) ∧
      rotate_diagonal_tensor R diag 5 = ∑ k : Fin 3, diag k * (R 1 k : ℂ) * (R 2 k : ℂ)) := by
  refine ⟨tensor_to_matrix_rotate_diagonal _ diag, fun R => ?_⟩
  refine ⟨?_, ?_, ?_, ?_, ?_, ?_⟩ <;>
    simp [rotate_diagonal_tensor, vec_six_apply_five, Fin.sum_univ_three] <;> ring

/-- Claim C7: `field2intensity` computes at each pixel the difference of the
two polarization-branch contributions
`Re(f0)·Re(f1) + Im(f0)·Im(f1) − (Re(f2)·Re(f3) + Im(f2)·Im(f3))`, which is
the real part of `f0·conj(f1)` minus the real part of `f2·conj(f3)`; the
output is one real scalar per pixel of a `[4, H, W]` input slice. -/
theorem field2intensity_formula {H W : ℕ} (field : Fin 4 → Fin H → Fin W → ℂ)
    (j : Fin H) (k : Fin W) :
    field2intensity field j k =
      ((field 0 j k).re * (field 1 j k).re + (field 0 j k).im * (field 1 j k).im) -
        ((field 2 j k).re * (field 3 j k).re + (field 2 j k).im * (field 3 j k).im) ∧
    field2intensity field j k =
      (field 0 j k * (starRingEnd ℂ) (field 1 j k)).re -
        (field 2 j k * (starRingEnd ℂ) (field 3 j k)).re := by
  refine ⟨rfl, ?_⟩
  simp [field2intensity, Complex.mul_re]

/-- Claim C6: `validate_field_data` fails exactly when `field.ndim < 4`, or
`len(wavelengths)` disagrees with `field.shape[-4]`, or `wavelengths` is not
1-D; otherwise it returns the triple unchanged (dtype and scalar coercions
being the identity on arrays already of the configured dtypes). -/
theorem validate_field_data_spec (field : CArr) (wavelengths : RArr) (pixelsize : ℚ) :
    (is_ok (validate_field_data field wavelengths pixelsize) = false ↔
      (field.shape.length < 4 ∨
        wavelengths.pyLen ≠ some (field.shape.getD (field.shape.length - 4) 0) ∨
        wavelengths.shape.length ≠ 1)) ∧
    (∀ r, validate_field_data field wavelengths pixelsize = .ok r ↔
      (¬(field.shape.length < 4 ∨
          wavelengths.pyLen ≠ some (field.shape.getD (field.shape.length - 4) 0) ∨
          wavelengths.shape.length ≠ 1) ∧
        r = (field, wavelengths, pixelsize))) := by
  by_cases h1 : field.shape.length < 4
  · refine ⟨⟨fun _ => Or.inl h1, fun _ => ?_⟩, fun r => ?_⟩
    · simp [validate_field_data, h1, is_ok]
    · simp [validate_field_data, h1]
  · rcases hw : wavelengths.pyLen with _ | n
    · refine ⟨⟨fun _ => Or.inr (Or.inl (by simp [hw])), fun _ => ?_⟩, fun r => ?_⟩
      · simp [validate_field_data, h1, hw, is_ok]
      · simp [validate_field_data, h1, hw]
    · by_cases h2 : field.shape.getD (field.shape.length - 4) 0 ≠ n ∨
        wavelengths.shape.length ≠ 1
      · have hcond : field.shape.length < 4 ∨
            (some n : Option ℕ) ≠ some (field.shape.getD (field.shape.length - 4) 0) ∨
            wavelengths.shape.length ≠ 1 := by
          rcases h2 with h | h
          · refine Or.inr (Or.inl ?_)
            intro he
            exact h (Option.some.inj he).symm
          · exact Or.inr (Or.inr h)
        have hfail : validate_field_data field wavelengths pixelsize =
            .error "Incompatible wavelengths shape." := by
          unfold validate_field_data
          rw [if_neg h1]
          simp only [hw]
          rw [if_pos h2]
        refine ⟨⟨fun _ => hcond, fun _ => by simp [hfail, is_ok]⟩, fun r => ?_⟩
        rw [hfail]
        constructor
        · intro hc
          cases hc
        · rintro ⟨hnc, -⟩
          exact (hnc hcond).elim
      · push_neg at h2
        have hnc : ¬(field.shape.length < 4 ∨
            (some n : Option ℕ) ≠ some (field.shape.getD (field.shape.length - 4) 0) ∨
            wavelengths.shape.length ≠ 1) := by
          rintro (h | h | h)
          · exact h1 h
          · exact h (by rw [h2.1])
          · exact h h2.2
        have hok : validate_field_data field wavelengths pixelsize =
            .ok (field, wavelengths, pixelsize) := by
          unfold validate_field_data
          rw [if_neg h1]
          simp only [hw]
          rw [if_neg (by push_neg; exact h2)]
        refine ⟨⟨fun hfail => ?_, fun hc => (hnc hc).elim⟩, fun r => ?_⟩
        · rw [hok] at hfail
          simp [is_ok] at hfail
        · rw [hok]
          constructor
          · intro he
            exact ⟨hnc, (Except.ok.inj he).symm⟩
          · rintro ⟨-, hr⟩
            rw [hr]

/-- Witness for C6: a concrete valid triple passes through unchanged. -/
theorem validate_field_data_spec_witness :
    validate_field_data ⟨[1, 4, 2, 2], List.replicate 16 (0, 0)⟩ ⟨[1], [550]⟩ 100 =
      .ok (⟨[1, 4, 2, 2], List.replicate 16 (0, 0)⟩, ⟨[1], [550]⟩, 100) :=
  ((validate_field_data_spec ⟨[1, 4, 2, 2], List.replicate 16 (0, 0)⟩
      ⟨[1], [550]⟩ 100).2 _).mpr (by decide)

/-- Claim C4: `save_field` followed by `load_field` on the written stream
returns exactly the validated triple: identical field array, identical
wavelengths array, identical pixel size, and the save raises no error. -/
theorem save_load_roundtrip (fd : CArr × RArr × ℚ) (field : CArr)
    (wavelengths : RArr) (pixelsize : ℚ)
    (h : validate_field_data fd.1 fd.2.1 fd.2.2 = .ok (field, wavelengths, pixelsize)) :
    (save_field .stream fd).error = none ∧
    load_field ((save_field .stream fd).written) = .ok (field, wavelengths, pixelsize) := by
  unfold save_field
  rw [h]
  exact ⟨rfl, rfl⟩

/-- Witness for C4: round trip on a concrete valid triple. -/
theorem save_load_roundtrip_witness :
    (save_field .stream (⟨[1, 4, 1, 1], [(1, 0), (2, 0), (0, 1), (0, 2)]⟩,
      ⟨[1], [550]⟩, 100)).error = none ∧
    load_field ((save_field .stream (⟨[1, 4, 1, 1], [(1, 0), (2, 0), (0, 1), (0, 2)]⟩,
      ⟨[1], [550]⟩, 100)).written) =
      .ok (⟨[1, 4, 1, 1], [(1, 0), (2, 0), (0, 1), (0, 2)]⟩, ⟨[1], [550]⟩, 100) :=
  save_load_roundtrip _ _ _ _ (by decide)

/-- Claim C5: `load_field` fails with the file-format error whenever the first
four bytes are not the magic `dtmf`, and, when the magic matches, fails with
the distinct upgrade-instructing error whenever the version byte is any value
other than 0; in both cases no parse is attempted. -/
theorem load_field_rejects (s : List Tok) :
    (s.take 4 ≠ MAGIC.map Tok.byte → load_field s = .error magic_error) ∧
    (∀ v rest, s.take 4 = MAGIC.map Tok.byte → s.drop 4 = Tok.byte v :: rest →
      v ≠ VERSION → load_field s = .error version_error) := by
  constructor
  · intro hm
    unfold load_field
    rw [if_neg hm]
  · intro v rest hm hd hv
    unfold load_field
    rw [if_pos hm, hd]
    simp [hv]

/-- Witness for C5: a wrong magic and a wrong version byte on concrete
streams. -/
theorem load_field_rejects_witness :
    load_field [Tok.byte 1, Tok.byte 2] = .error magic_error ∧
    load_field (MAGIC.map Tok.byte ++ [Tok.byte 7]) = .error version_error :=
  ⟨(load_field_rejects [Tok.byte 1, Tok.byte 2]).1 (by decide),
   (load_field_rejects (MAGIC.map Tok.byte ++ [Tok.byte 7])).2 7 [] (by decide)
     (by decide) (by decide)⟩

/-- Claim C10: when validation fails, `save_field` raises the validation error
before opening or writing anything: no file is created and no tokens are
written, for a path target and for a stream target alike. -/
theorem save_field_validates_before_io (file : FileRef) (fd : CArr × RArr × ℚ)
    (e : String) (h : validate_field_data fd.1 fd.2.1 fd.2.2 = .error e) :
    save_field file fd = { created := none, written := [], error := some e } := by
  unfold save_field
  rw [h]

/-- Witness for C10: a 1-dimensional field is rejected and nothing is
created or written. -/
theorem save_field_validates_before_io_witness :
    save_field (.path ['o', 'u', 't']) (⟨[3], [(1, 0)]⟩, ⟨[1], [550]⟩, 100) =
      { created := none, written := [], error := some "Invald field dimensions" } :=
  save_field_validates_before_io (.path ['o', 'u', 't'])
    (⟨[3], [(1, 0)]⟩, ⟨[1], [550]⟩, 100) "Invald field dimensions" (by decide)

/-- Counterexample for C9: the filename `a.txt` has an extension, yet
`save_field` still appends `.dtmf` to it — the append is not restricted to
names lacking an extension. -/
theorem save_name_counterexample :
    lacks_extension ['a', '.', 't', 'x', 't'] = false ∧
    save_name ['a', '.', 't', 'x', 't'] =
      ['a', '.', 't', 'x', 't'] ++ dtmf_suffix := by decide

/-- Claim C9 as amended: `save_field` appends `.dtmf` exactly when the given
string does not already end with `.dtmf` (so also when it carries a different
extension), and `load_field` uses the given path verbatim. -/
theorem save_name_appends_iff (file : List Char) :
    (save_name file = file ↔ dtmf_suffix.isSuffixOf file = true) ∧
    (dtmf_suffix.isSuffixOf file = false → save_name file = file ++ dtmf_suffix) ∧
    load_name file = file := by
  refine ⟨⟨?_, ?_⟩, ?_, rfl⟩
  · intro h
    by_contra hs
    rw [Bool.not_eq_true] at hs
    unfold save_name at h
    rw [if_neg (by simp [hs])] at h
    have := congrArg List.length h
    simp [dtmf_suffix] at this
  · intro hs
    unfold save_name
    rw [if_pos hs]
  · intro hs
    unfold save_name
    rw [if_neg (by simp [hs])]

/-- Witness for C9 (amended): both branches at concrete filenames. -/
theorem save_name_appends_iff_witness :
    save_name ['a'] = ['a'] ++ dtmf_suffix ∧ save_name dtmf_suffix = dtmf_suffix :=
  ⟨(save_name_appends_iff ['a']).2.1 (by decide),
   (save_name_appends_iff dtmf_suffix).1.2 (by decide)⟩

/-- Counterexample for C8: a non-`ndarray` diagonal of shape `(2,)` — not the
expected `(3,)` — passes `rotate_diagonal_tensor`'s argument validation
without any error: `np.array(mat, dtype)` conversion skips the shape check. -/
theorem rotate_diagonal_tensor_argcheck_counterexample :
    (PyVal.raw [2]).shape ≠ [3] ∧
    rotate_diagonal_tensor_argcheck (PyVal.nd [3, 3] .float) (PyVal.raw [2]) none =
      .ok (([6], .cplx), ([2], .cplx), ([3, 3], .float)) := by decide

lemma is_ok_output_some (s : List Nat) (d : NpDtype) (shape : List Nat)
    (dtype : NpDtype) :
    is_ok (output_matrix (some (s, d)) shape dtype) = true ↔ (s = shape ∧ d = dtype) := by
  by_cases hc : s = shape ∧ d = dtype <;>
    simp [output_matrix, check_matrix, hc, is_ok]

lemma is_ok_input_nd (s : List Nat) (d : NpDtype) (shape : List Nat)
    (dtype : NpDtype) :
    is_ok (input_matrix (.nd s d) shape dtype) = true ↔ (s = shape ∧ d = dtype) := by
  by_cases hc : s = shape ∧ d = dtype <;>
    simp [input_matrix, check_matrix, hc, is_ok]

lemma is_ok_rotate_diagonal_tensor_argcheck (R diagonal : PyVal)
    (output : Option (List Nat × NpDtype)) :
    is_ok (rotate_diagonal_tensor_argcheck R diagonal output) = true ↔
      (is_ok (output_matrix output [6] .cplx) = true ∧
        is_ok (input_matrix diagonal [3] .cplx) = true ∧
        is_ok (input_matrix R [3, 3] .float) = true) := by
  rcases h1 : output_matrix output [6] .cplx with e1 | o1 <;>
  rcases h2 : input_matrix diagonal [3] .cplx with e2 | o2 <;>
  rcases h3 : input_matrix R [3, 3] .float with e3 | o3 <;>
    simp [rotate_diagonal_tensor_argcheck, h1, h2, h3, is_ok]

lemma is_ok_tensor_to_matrix_argcheck (tensor : PyVal)
    (output : Option (List Nat × NpDtype)) :
    is_ok (tensor_to_matrix_argcheck tensor output) = true ↔
      (is_ok (output_matrix output [3, 3] .cplx) = true ∧
        is_ok (input_matrix tensor [6] .cplx) = true) := by
  rcases h1 : output_matrix output [3, 3] .cplx with e1 | o1 <;>
  rcases h2 : input_matrix tensor [6] .cplx with e2 | o2 <;>
    simp [tensor_to_matrix_argcheck, h1, h2, is_ok]

lemma is_ok_diagional_tensor_to_matrix_argcheck (tensor : PyVal)
    (output : Option (List Nat × NpDtype)) :
    is_ok (diagional_tensor_to_matrix_argcheck tensor output) = true ↔
      (is_ok (output_matrix output [3, 3] .cplx) = true ∧
        is_ok (input_matrix tensor [3] .cplx) = true) := by
  rcases h1 : output_matrix output [3, 3] .cplx with e1 | o1 <;>
  rcases h2 : input_matrix tensor [3] .cplx with e2 | o2 <;>
    simp [diagional_tensor_to_matrix_argcheck, h1, h2, is_ok]

/-- Claim C8 as amended: the low-level rotation wrappers validate strictly the
shape and dtype of caller-supplied output buffers and of inputs that are
already numpy arrays, erring on any disagreement; a non-array input is instead
converted to the requested dtype with its own inferred shape, unchecked. -/
theorem rotation_kernel_validation (Rs ds ts os : List Nat)
    (Rd dd td od : NpDtype) :
    (is_ok (rotation_matrix_argcheck (some (os, od))) = true ↔
      (os = [3, 3] ∧ od = .float)) ∧
    (is_ok (rotation_matrix_uniaxial_argcheck (some (os, od))) = true ↔
      (os = [3, 3] ∧ od = .float)) ∧
    (is_ok (rotate_diagonal_tensor_argcheck (.nd Rs Rd) (.nd ds dd) (some (os, od)))
        = true ↔
      (os = [6] ∧ od = .cplx ∧ ds = [3] ∧ dd = .cplx ∧ Rs = [3, 3] ∧ Rd = .float)) ∧
    (is_ok (tensor_to_matrix_argcheck (.nd ts td) (some (os, od))) = true ↔
      (os = [3, 3] ∧ od = .cplx ∧ ts = [6] ∧ td = .cplx)) ∧
    (is_ok (diagional_tensor_to_matrix_argcheck (.nd ds dd) (some (os, od))) = true ↔
      (os = [3, 3] ∧ od = .cplx ∧ ds = [3] ∧ dd = .cplx)) ∧
    (∀ s expected, input_matrix (.raw s) expected .cplx = .ok (s, .cplx)) := by
  refine ⟨?_, ?_, ?_, ?_, ?_, fun s expected => rfl⟩
  · exact is_ok_output_some os od [3, 3] .float
  · exact is_ok_output_some os od [3, 3] .float
  · rw [is_ok_rotate_diagonal_tensor_argcheck, is_ok_output_some, is_ok_input_nd,
      is_ok_input_nd]
    tauto
  · rw [is_ok_tensor_to_matrix_argcheck, is_ok_output_some, is_ok_input_nd]
    tauto
  · rw [is_ok_diagional_tensor_to_matrix_argcheck, is_ok_output_some, is_ok_input_nd]
    tauto

end Dtmm
